import Mathlib

/-!
Shallow embedding of the reconciliation core of `app.py`
(Rastrero generator): unit-factor extraction, aisle/level
classification, key aggregation and the inbound/outbound
stock-balance computations, together with theorems settling
the specification claims about them.

Numeric columns are embedded as rationals; a pandas value that
may be NaN/non-string is embedded as an `Option`; Python code
that can raise is embedded as `Except`.
-/

namespace Rastrero

/-- Python slicing `u[a:b]` on the character list of a string
(`a ≤ b`, non-negative indices; out-of-range parts are clamped,
exactly as `List.drop`/`List.take` clamp). -/
def pySlice (l : List Char) (a b : ℕ) : List Char :=
  (l.drop a).take (b - a)

/-- Python `str.isspace()` per character: the 29 code points the
Unicode database marks as whitespace for Python (categories Zs/Zl/Zp
plus bidirectional classes WS/B/S), enumerated from CPython itself. -/
def pyIsSpace (c : Char) : Bool :=
  let n := c.toNat
  decide ((9 ≤ n ∧ n ≤ 13) ∨ (28 ≤ n ∧ n ≤ 32) ∨ n = 133 ∨ n = 160 ∨
    n = 5760 ∨ (8192 ≤ n ∧ n ≤ 8202) ∨ n = 8232 ∨ n = 8233 ∨ n = 8239 ∨
    n = 8287 ∨ n = 12288)

/-- Python `s.strip()` on the character list of a string: Python
whitespace removed from both ends. -/
def pyStrip (l : List Char) : List Char :=
  ((l.dropWhile pyIsSpace).reverse.dropWhile pyIsSpace).reverse

/-- The runs of Unicode decimal digits (category Nd): exactly the
single characters `int()` accepts, each run ordered from its zero
digit, enumerated from CPython itself.  `int(c)` for `c` in a run
`(a, b)` is `c - a`. -/
def pyDecimalRuns : List (ℕ × ℕ) :=
  [(48, 57), (1632, 1641), (1776, 1785), (1984, 1993), (2406, 2415),
   (2534, 2543), (2662, 2671), (2790, 2799), (2918, 2927), (3046, 3055),
   (3174, 3183), (3302, 3311), (3430, 3439), (3558, 3567), (3664, 3673),
   (3792, 3801), (3872, 3881), (4160, 4169), (4240, 4249), (6112, 6121),
   (6160, 6169), (6470, 6479), (6608, 6617), (6784, 6793), (6800, 6809),
   (6992, 7001), (7088, 7097), (7232, 7241), (7248, 7257), (42528, 42537),
   (43216, 43225), (43264, 43273), (43472, 43481), (43504, 43513),
   (43600, 43609), (44016, 44025), (65296, 65305), (66720, 66729),
   (68912, 68921), (69734, 69743), (69872, 69881), (69942, 69951),
   (70096, 70105), (70384, 70393), (70736, 70745), (70864, 70873),
   (71248, 71257), (71360, 71369), (71472, 71481), (71904, 71913),
   (72016, 72025), (72784, 72793), (73040, 73049), (73120, 73129),
   (92768, 92777), (92864, 92873), (93008, 93017), (120782, 120791),
   (120792, 120801), (120802, 120811), (120812, 120821), (120822, 120831),
   (123200, 123209), (123632, 123641), (125264, 125273), (130032, 130041)]

/-- Python `int(c)` for a single character: its decimal value when `c`
is a Unicode decimal digit, `none` when `int()` raises `ValueError`. -/
def pyDecimalVal (c : Char) : Option ℕ :=
  (pyDecimalRuns.find? fun r => decide (r.1 ≤ c.toNat ∧ c.toNat ≤ r.2)).map
    fun r => c.toNat - r.1

/-- The code points where Python `str.isdigit()` is true but `int()`
raises (Numeric_Type=Digit without a decimal value: superscripts,
subscripts, circled digits, …), enumerated from CPython itself. -/
def pyDigitExtraRanges : List (ℕ × ℕ) :=
  [(178, 179), (185, 185), (4969, 4977), (6618, 6618), (8304, 8304),
   (8308, 8313), (8320, 8329), (9312, 9320), (9332, 9340), (9352, 9360),
   (9450, 9450), (9461, 9469), (9471, 9471), (10102, 10110),
   (10112, 10120), (10122, 10130), (68160, 68163), (69216, 69224),
   (69714, 69722), (127232, 127242)]

/-- Python `c.isdigit()` per character: decimal digits plus the
digit-without-decimal-value code points. -/
def pyIsDigit (c : Char) : Bool :=
  (pyDecimalVal c).isSome ||
    pyDigitExtraRanges.any fun r => decide (r.1 ≤ c.toNat ∧ c.toNat ≤ r.2)

/-- Python `s.startswith(p)` (used as
`df['Ubicación Origen'].str.startswith('B4.RE', na=False)`). -/
def py_startswith (s p : String) : Bool :=
  s.data.take p.data.length == p.data

/-! ## Reconciler (Inbound): `rastrero_in`, step 3

```
ge_mask = cruce['Stock Final_1'] >= cruce['Ingresos_1']
cruce['Stock Inicial_1'] = np.where(ge_mask,
    cruce['Stock Final_1'] - cruce['Ingresos_1'], cruce['Stock Final_1'])
cruce['Observacion_1'] = np.where(ge_mask, '', 'Regu')
```
-/

/-- `Stock Inicial_1` of one joined inbound row, from its
`Stock Final_1` (closing stock) and `Ingresos_1` (summed inbound
quantity). -/
def stockInicial_1 (stockFinal ingresos : ℚ) : ℚ :=
  if stockFinal ≥ ingresos then stockFinal - ingresos else stockFinal

/-- `Observacion_1` of one joined inbound row. -/
def observacion_1 (stockFinal ingresos : ℚ) : String :=
  if stockFinal ≥ ingresos then "" else "Regu"

/-! ## Reconciler (Outbound): `rastrero_out`, step 6

```
bd = pd.merge(state['asign'], state['df_stock'], left_on='Concat1',
              right_on='Concat2', how='left', ...)
bd['Salidas']=bd['Cajas_x']
bd['Stock Final']=bd['Cajas_y'].fillna(0)
bd['Stock Inicial']=bd['Salidas']+bd['Stock Final']
bd['Check']=''; bd['Observacion']=''
```
-/

/-- The left-join lookup of the aggregated stock table
(`Concat2 ↦ Cajas_y`) at a composite key: `none` embeds the
NaN produced by an unmatched key. -/
def lookupStock (tbl : List (String × ℚ)) (k : String) : Option ℚ :=
  (tbl.find? fun p => p.1 == k).map Prod.snd

/-- `Stock Final` of one outbound row: `Cajas_y` after `fillna(0)`. -/
def out_stockFinal (tbl : List (String × ℚ)) (k : String) : ℚ :=
  (lookupStock tbl k).getD 0

/-- `Stock Inicial` of one outbound row: `Salidas + Stock Final`. -/
def out_stockInicial (tbl : List (String × ℚ)) (k : String) (salidas : ℚ) : ℚ :=
  salidas + out_stockFinal tbl k

/-- `Observacion` of one outbound row: set unconditionally to `''`. -/
def out_observacion : String := ""

/-! ## Theorems for claims C1 and C2 -/

/-- Claim C1: for every inbound row, when closing stock is at least
the summed inbound quantity, opening stock is closing minus inbound
and the observation is empty; otherwise opening stock equals closing
stock and the observation is "Regu".  Equivalently, an empty
observation implies `opening + inbound = closing` and observation
"Regu" implies `opening = closing`. -/
theorem rastrero_in_invariant (f i : ℚ) :
    (observacion_1 f i = "" → stockInicial_1 f i + i = f) ∧
    (observacion_1 f i = "Regu" → stockInicial_1 f i = f) ∧
    (f ≥ i → stockInicial_1 f i = f - i ∧ observacion_1 f i = "") ∧
    (¬ f ≥ i → stockInicial_1 f i = f ∧ observacion_1 f i = "Regu") := by
  by_cases h : f ≥ i <;>
    simp [stockInicial_1, observacion_1, h]

/-- Witness for C1 at the spec's own scenario: closing stock 50,
inbound 80 gives opening 50 and observation "Regu". -/
theorem rastrero_in_invariant_witness :
    stockInicial_1 50 80 = 50 ∧ observacion_1 50 80 = "Regu" :=
  (rastrero_in_invariant 50 80).2.2.2 (by norm_num)

/-- Claim C2: for every outbound row, opening stock minus the
outbound flow quantity equals closing stock, unconditionally, and the
observation column is the empty string; when the composite key has no
matching aggregated stock row, closing stock defaults to 0 and
opening stock equals the flow quantity. -/
theorem rastrero_out_invariant (tbl : List (String × ℚ)) (k : String) (s : ℚ) :
    (out_stockInicial tbl k s - s = out_stockFinal tbl k ∧ out_observacion = "") ∧
    ((∀ p ∈ tbl, p.1 ≠ k) → out_stockFinal tbl k = 0 ∧ out_stockInicial tbl k s = s) := by
  refine ⟨⟨by simp [out_stockInicial], rfl⟩, fun h => ?_⟩
  have hf : (tbl.find? fun p => p.1 == k) = none := by
    rw [List.find?_eq_none]
    intro p hp
    simpa using h p hp
  constructor
  · simp [out_stockFinal, lookupStock, hf]
  · simp [out_stockInicial, out_stockFinal, lookupStock, hf]

/-- Witness for C2: stock table holding only key "A", looked up at the
unmatched key "B" with flow quantity 7. -/
theorem rastrero_out_invariant_witness :
    out_stockFinal [("A", (5 : ℚ))] "B" = 0 ∧
    out_stockInicial [("A", (5 : ℚ))] "B" 7 = 7 :=
  (rastrero_out_invariant [("A", (5 : ℚ))] "B" 7).2 (by decide)

/-! ## Classifier: `calc_pasillo` (two copies in the source) and
`calc_nivel`, plus the stock-preparation level rule -/

/-- First `calc_pasillo` (module-level helper, before `rastrero_out`):
defined on strings only; `len(u)`, `u[3:5]`, `u[8:11]`. -/
def calc_pasillo_v1 (u : String) : String :=
  if u.length < 11 then "Libre"
  else if pySlice u.data 3 5 = ['M', 'R'] then "Pasillo_1"
  else
    let tramo := pySlice u.data 8 11
    if tramo = "C06".data ∨ tramo = "C07".data ∨ tramo = "C08".data then "Pasillo_1"
    else if tramo = "C09".data ∨ tramo = "C10".data then "Pasillo_2"
    else if tramo = "C11".data ∨ tramo = "C12".data then "Pasillo_3"
    else "Libre"

/-- Second `calc_pasillo` (redefined in the Rastrero Out module; the
definition actually in scope at the call site): identical body, with a
leading `isinstance(u, str)` guard returning `'Libre'` for non-string
input (embedded as `none`). -/
def calc_pasillo_out (u : Option String) : String :=
  match u with
  | none => "Libre"
  | some u =>
    if u.length < 11 then "Libre"
    else if pySlice u.data 3 5 = ['M', 'R'] then "Pasillo_1"
    else
      let tramo := pySlice u.data 8 11
      if tramo = "C06".data ∨ tramo = "C07".data ∨ tramo = "C08".data then "Pasillo_1"
      else if tramo = "C09".data ∨ tramo = "C10".data then "Pasillo_2"
      else if tramo = "C11".data ∨ tramo = "C12".data then "Pasillo_3"
      else "Libre"

/-- `calc_nivel` of the Rastrero Out module.  Non-string/NaN input is
`none` and yields `''`.  On a string: `'B'` when `len ≥ 6` and
`u[4:6] == 'MR'`; otherwise Python evaluates `u.strip()[-1]`, which
raises `IndexError` when the stripped string is empty (embedded as
`Except.error`); then `last.isdigit() and int(last) <= 2` with Python
short-circuiting: a non-digit last character gives `'A'`, a digit-like
character without a decimal value makes `int(last)` raise
`ValueError`, and a decimal digit answers `'B'`/`'A'` by its value. -/
def calc_nivel (u_out : Option String) : Except String String :=
  match u_out with
  | none => Except.ok ""
  | some u =>
    if 6 ≤ u.length ∧ pySlice u.data 4 6 = ['M', 'R'] then Except.ok "B"
    else
      match (pyStrip u.data).getLast? with
      | none => Except.error "IndexError"
      | some last =>
        if pyIsDigit last then
          match pyDecimalVal last with
          | some v => Except.ok (if v ≤ 2 then "B" else "A")
          | none => Except.error "ValueError"
        else Except.ok "A"

/-- The level rule of `preparar_stock` (`nivel`), per element:
`ult = s.str[-1]`, then `np.where(ult.str.isnumeric() & (ult.astype(int) < 3),
'BAJO', 'ALTO')`.  `astype(int)` is evaluated eagerly and raises unless
the character is a Unicode decimal digit; a missing last character
(empty string) gives NaN, on which `astype(int)` also raises.  When the
character is a decimal digit, `isnumeric()` is automatically true, so
the value alone decides. -/
def nivel_stock (u : String) : Except String String :=
  match u.data.getLast? with
  | none => Except.error "ValueError"
  | some c =>
    match pyDecimalVal c with
    | some v => Except.ok (if v < 3 then "BAJO" else "ALTO")
    | none => Except.error "ValueError"

/-! ## Theorems for claims C3, C5, C10 -/

/-- Counterexample for claim C3: the aisle classifier does not send
`"B4.RE.C06.A01"` to `Pasillo_1` — its offsets [8,11) hold `"6.A"`,
not `"C06"`. -/
theorem calc_pasillo_B4RE_not_pasillo1 :
    calc_pasillo_out (some "B4.RE.C06.A01") ≠ "Pasillo_1" := by
  decide

/-- Claim C3 amended: on `"B4.RE.C06.A01"` (length 13, offsets [3,5) =
`"RE"`, offsets [8,11) = `"6.A"`) the aisle classifier returns `Libre`;
the outbound level classifier still returns level `B` (last character
`'1'` is a digit ≤ 2), so the zone would be `"Libre_B"` and the row is
dropped by the `Pasillo != 'Libre'` filter. -/
theorem calc_pasillo_B4RE_libre :
    calc_pasillo_out (some "B4.RE.C06.A01") = "Libre" ∧
    calc_nivel (some "B4.RE.C06.A01") = Except.ok "B" :=
  ⟨rfl, rfl⟩

/-- Counterexample for claim C5: `calc_nivel` raises `IndexError` on
the empty string (`''.strip()[-1]`), so it is not total on all string
inputs. -/
theorem calc_nivel_raises_on_empty :
    calc_nivel (some "") = Except.error "IndexError" :=
  rfl

/-- Claim C5 amended: the level classifiers are not total.
`calc_nivel` returns `''` without raising on non-string/missing input,
and returns `'A'` or `'B'` without raising on every string whose
Python-stripped form ends in a character that is either not digit-like
(`isdigit()` false) or a decimal digit (`int()` value exists); it
raises `IndexError` on strings that strip to empty (the empty string
and whitespace-only strings) and `ValueError` on last characters that
are digit-like without a decimal value (such as the superscript two).
The stock-preparation level rule returns `'BAJO'`/`'ALTO'` without
raising exactly when the location's last character is a Unicode
decimal digit, and raises otherwise. -/
theorem nivel_total_on_restricted (u : Option String) (s : String)
    (h1 : ∀ t, u = some t → ∃ c, (pyStrip t.data).getLast? = some c ∧
      (pyIsDigit c = false ∨ (pyDecimalVal c).isSome))
    (h2 : ∃ c, s.data.getLast? = some c ∧ (pyDecimalVal c).isSome) :
    (∃ v, calc_nivel u = Except.ok v ∧ (v = "" ∨ v = "A" ∨ v = "B")) ∧
    (∃ w, nivel_stock s = Except.ok w ∧ (w = "BAJO" ∨ w = "ALTO")) := by
  constructor
  · match u with
    | none => exact ⟨"", rfl, Or.inl rfl⟩
    | some t =>
      obtain ⟨c, hc, hcase⟩ := h1 t rfl
      by_cases hmr : 6 ≤ t.length ∧ pySlice t.data 4 6 = ['M', 'R']
      · exact ⟨"B", by simp [calc_nivel, hmr], Or.inr (Or.inr rfl)⟩
      · rcases hcase with hnd | hdec
        · refine ⟨"A", ?_, Or.inr (Or.inl rfl)⟩
          simp only [calc_nivel, if_neg hmr, hc]
          rw [if_neg (by simp [hnd])]
        · obtain ⟨v, hv⟩ := Option.isSome_iff_exists.mp hdec
          have hdig : pyIsDigit c = true := by
            simp [pyIsDigit, Option.isSome_iff_exists.mpr ⟨v, hv⟩]
          by_cases hle : v ≤ 2
          · refine ⟨"B", ?_, Or.inr (Or.inr rfl)⟩
            simp only [calc_nivel, if_neg hmr, hc]
            rw [if_pos hdig, hv]
            simp [hle]
          · refine ⟨"A", ?_, Or.inr (Or.inl rfl)⟩
            simp only [calc_nivel, if_neg hmr, hc]
            rw [if_pos hdig, hv]
            simp [hle]
  · obtain ⟨c, hlast, hdec⟩ := h2
    obtain ⟨v, hv⟩ := Option.isSome_iff_exists.mp hdec
    by_cases hlt : v < 3
    · exact ⟨"BAJO", by simp [nivel_stock, hlast, hv, hlt], Or.inl rfl⟩
    · exact ⟨"ALTO", by simp [nivel_stock, hlast, hv, hlt], Or.inr rfl⟩

/-- Witness for the amended C5: the location `"B4.RE.C06.A01"` (level
`B`; the last stripped character `'1'` is a decimal digit) and the
stock location `"A01"`. -/
theorem nivel_total_on_restricted_witness :
    (∃ v, calc_nivel (some "B4.RE.C06.A01") = Except.ok v ∧
      (v = "" ∨ v = "A" ∨ v = "B")) ∧
    (∃ w, nivel_stock "A01" = Except.ok w ∧ (w = "BAJO" ∨ w = "ALTO")) :=
  nivel_total_on_restricted (some "B4.RE.C06.A01") "A01"
    (fun t ht => by cases ht; exact ⟨'1', by decide, Or.inr (by decide)⟩)
    ⟨'1', by decide, by decide⟩

/-- Claim C10: the two `calc_pasillo` definitions in the source agree
on every string input; on non-string input the second (the redefinition
in scope at the outbound call site) returns `Libre`. -/
theorem calc_pasillo_versions_agree :
    (∀ u : String, calc_pasillo_v1 u = calc_pasillo_out (some u)) ∧
    calc_pasillo_out none = "Libre" :=
  ⟨fun _ => rfl, rfl⟩

/-! ## Inbound movement categorization (`rastrero_in`)

```
df['Categoria'] = ''
mask_alma = (df['Motivo']=='CAMBIO DE UBICACION') & df['Ubicación Origen'].str.startswith('B4.RE', na=False)
mask_mov  = (df['Motivo']=='CAMBIO DE UBICACION') & ~mask_alma
mask_est  = df['Motivo']=='CAMBIO DE ESTADO'
df.loc[mask_alma, 'Categoria'] = 'Almacenamiento'
df.loc[mask_mov,  'Categoria'] = 'Mov_Interno'
df.loc[mask_est,  'Categoria'] = 'Regul_Interna/Cambio_Estado'
```
-/

/-- One inbound movement record, restricted to the fields the
categorization reads. -/
structure MovRecord where
  motivo : String
  ubicacionOrigen : String
  ubicacionDestino : String
deriving DecidableEq

def mask_alma (r : MovRecord) : Bool :=
  (r.motivo == "CAMBIO DE UBICACION") && py_startswith r.ubicacionOrigen "B4.RE"

def mask_mov (r : MovRecord) : Bool :=
  (r.motivo == "CAMBIO DE UBICACION") && !(mask_alma r)

def mask_est (r : MovRecord) : Bool :=
  r.motivo == "CAMBIO DE ESTADO"

/-- `Categoria` of one movement record: starts as `''`, then the three
masked assignments are applied in source order. -/
def categoria (r : MovRecord) : String :=
  let c1 := if mask_alma r then "Almacenamiento" else ""
  let c2 := if mask_mov r then "Mov_Interno" else c1
  if mask_est r then "Regul_Interna/Cambio_Estado" else c2

/-- Counterexample for claim C4: a record whose motivo is
"CAMBIO DE UBICACION" and whose destination starts with "B4.RE" but
whose origin does not is categorized `Mov_Interno`, not
`Almacenamiento`: the code tests the origin location, not the
destination. -/
theorem categoria_uses_origen_not_destino :
    ¬ (categoria ⟨"CAMBIO DE UBICACION", "A1.XX.C01.B02", "B4.RE.C06.A01"⟩ = "Almacenamiento" ↔
       ((MovRecord.motivo ⟨"CAMBIO DE UBICACION", "A1.XX.C01.B02", "B4.RE.C06.A01"⟩ = "CAMBIO DE UBICACION") ∧
        py_startswith (MovRecord.ubicacionDestino ⟨"CAMBIO DE UBICACION", "A1.XX.C01.B02", "B4.RE.C06.A01"⟩) "B4.RE" = true)) := by
  decide

/-- Claim C4 amended: the derived category is `Almacenamiento` exactly
when motivo is "CAMBIO DE UBICACION" and the ORIGIN location starts
with "B4.RE"; "CAMBIO DE UBICACION" with any other origin gives
`Mov_Interno`; "CAMBIO DE ESTADO" gives the state-change category
`Regul_Interna/Cambio_Estado`; every other motivo gives the empty
category. -/
theorem categoria_characterization (r : MovRecord) :
    (categoria r = "Almacenamiento" ↔
      (r.motivo = "CAMBIO DE UBICACION" ∧ py_startswith r.ubicacionOrigen "B4.RE" = true)) ∧
    (categoria r = "Mov_Interno" ↔
      (r.motivo = "CAMBIO DE UBICACION" ∧ py_startswith r.ubicacionOrigen "B4.RE" = false)) ∧
    (categoria r = "Regul_Interna/Cambio_Estado" ↔ r.motivo = "CAMBIO DE ESTADO") ∧
    (categoria r = "" ↔
      (r.motivo ≠ "CAMBIO DE UBICACION" ∧ r.motivo ≠ "CAMBIO DE ESTADO")) := by
  by_cases hu : r.motivo = "CAMBIO DE UBICACION"
  · have he : r.motivo ≠ "CAMBIO DE ESTADO" := by
      rw [hu]; decide
    by_cases hs : py_startswith r.ubicacionOrigen "B4.RE" = true
    · simp [categoria, mask_alma, mask_mov, mask_est, hu, he, hs]
    · simp only [Bool.not_eq_true] at hs
      simp [categoria, mask_alma, mask_mov, mask_est, hu, he, hs]
  · by_cases he : r.motivo = "CAMBIO DE ESTADO"
    · simp [categoria, mask_alma, mask_mov, mask_est, hu, he]
    · simp [categoria, mask_alma, mask_mov, mask_est, hu, he]

/-! ## Claim C8: full case analysis of the aisle classifier -/

/-- The three characters the spec calls the "substring at offsets
[8,11)" of a location, read positionally. -/
def tram (u : String) : List Char :=
  [u.data.getD 8 ' ', u.data.getD 9 ' ', u.data.getD 10 ' ']

theorem pySlice_two (l : List Char) (a : ℕ) (h : a + 1 < l.length) :
    pySlice l a (a + 2) = [l.getD a ' ', l.getD (a + 1) ' '] := by
  have h0 : a < l.length := by omega
  have e2 : a + 2 - a = 2 := by omega
  rw [pySlice, List.drop_eq_getElem_cons h0, List.drop_eq_getElem_cons h, e2,
    List.getD_eq_getElem l ' ' h0, List.getD_eq_getElem l ' ' h]
  rfl

theorem pySlice_three (l : List Char) (a : ℕ) (h : a + 2 < l.length) :
    pySlice l a (a + 3) = [l.getD a ' ', l.getD (a + 1) ' ', l.getD (a + 2) ' '] := by
  have h0 : a < l.length := by omega
  have h1 : a + 1 < l.length := by omega
  have e3 : a + 3 - a = 3 := by omega
  rw [pySlice, List.drop_eq_getElem_cons h0, List.drop_eq_getElem_cons h1,
    List.drop_eq_getElem_cons h, e3,
    List.getD_eq_getElem l ' ' h0, List.getD_eq_getElem l ' ' h1,
    List.getD_eq_getElem l ' ' h]
  rfl

/-- Claim C8: for every location string, `calc_pasillo` returns `Libre`
below length 11; at length ≥ 11 it returns `Pasillo_1` when the
characters at offsets 3 and 4 are `MR`, and otherwise the three
characters at offsets 8–10 decide: `C06`/`C07`/`C08` give `Pasillo_1`,
`C09`/`C10` give `Pasillo_2`, `C11`/`C12` give `Pasillo_3`, anything
else gives `Libre`. -/
theorem calc_pasillo_characterization (u : String) :
    (u.length < 11 → calc_pasillo_out (some u) = "Libre") ∧
    (11 ≤ u.length → (u.data.getD 3 ' ' = 'M' ∧ u.data.getD 4 ' ' = 'R') →
      calc_pasillo_out (some u) = "Pasillo_1") ∧
    (11 ≤ u.length → ¬(u.data.getD 3 ' ' = 'M' ∧ u.data.getD 4 ' ' = 'R') →
      ((tram u = ['C', '0', '6'] ∨ tram u = ['C', '0', '7'] ∨ tram u = ['C', '0', '8']) →
        calc_pasillo_out (some u) = "Pasillo_1") ∧
      ((tram u = ['C', '0', '9'] ∨ tram u = ['C', '1', '0']) →
        calc_pasillo_out (some u) = "Pasillo_2") ∧
      ((tram u = ['C', '1', '1'] ∨ tram u = ['C', '1', '2']) →
        calc_pasillo_out (some u) = "Pasillo_3") ∧
      ((tram u ≠ ['C', '0', '6'] ∧ tram u ≠ ['C', '0', '7'] ∧ tram u ≠ ['C', '0', '8'] ∧
        tram u ≠ ['C', '0', '9'] ∧ tram u ≠ ['C', '1', '0'] ∧
        tram u ≠ ['C', '1', '1'] ∧ tram u ≠ ['C', '1', '2']) →
        calc_pasillo_out (some u) = "Libre")) := by
  have hlen : u.data.length = u.length := rfl
  refine ⟨fun h => by simp [calc_pasillo_out, h], fun h11 hmr => ?_, fun h11 hmr => ?_⟩
  · have h35 : pySlice u.data 3 5 = [u.data.getD 3 ' ', u.data.getD 4 ' '] :=
      pySlice_two u.data 3 (by omega)
    have hnot : ¬ u.length < 11 := by omega
    have hcond : pySlice u.data 3 5 = ['M', 'R'] := by rw [h35, hmr.1, hmr.2]
    simp [calc_pasillo_out, hnot, hcond]
  · have h35 : pySlice u.data 3 5 = [u.data.getD 3 ' ', u.data.getD 4 ' '] :=
      pySlice_two u.data 3 (by omega)
    have h811 : pySlice u.data 8 11 = tram u :=
      pySlice_three u.data 8 (by omega)
    have hnot : ¬ u.length < 11 := by omega
    have hmr' : pySlice u.data 3 5 ≠ ['M', 'R'] := by
      rw [h35]
      intro hc
      exact hmr (by simpa using hc)
    refine ⟨fun ht => ?_, fun ht => ?_, fun ht => ?_, fun ht => ?_⟩
    · simp only [calc_pasillo_out, if_neg hnot, if_neg hmr', h811]
      rcases ht with h | h | h <;> simp [h]
    · simp only [calc_pasillo_out, if_neg hnot, if_neg hmr', h811]
      rcases ht with h | h <;> simp [h]
    · simp only [calc_pasillo_out, if_neg hnot, if_neg hmr', h811]
      rcases ht with h | h <;> simp [h]
    · obtain ⟨n6, n7, n8, n9, n10, n11, n12⟩ := ht
      simp only [calc_pasillo_out, if_neg hnot, if_neg hmr', h811]
      simp [n6, n7, n8, n9, n10, n11, n12]

/-- Witness for C8 at the spec's round-trip example: `"B4.MR.C06.001"`
has `MR` at offsets 3–4 and classifies as `Pasillo_1`. -/
theorem calc_pasillo_characterization_witness :
    calc_pasillo_out (some "B4.MR.C06.001") = "Pasillo_1" :=
  (calc_pasillo_characterization "B4.MR.C06.001").2.1 (by decide)
    ⟨by decide, by decide⟩

/-! ## Unit Converter: `factor`

```
def factor(s: pd.Series) -> pd.Series:
    return (s.astype(str)
             .str.extract(r'C(\d+(?:\.\d+)?)U', expand=False)
             .astype(float)
             .fillna(1))
```

`str.extract` takes the leftmost match of the pattern; the matched
token is the decimal numeral between `C` and `U`, whose exact value we
embed as a rational.  The scanner below realizes the regex: at each
position, `C` must be followed by one or more digits, then optionally
a dot and one or more digits, then `U`; the character classes of the
pattern are disjoint, so the greedy digit runs need no backtracking. -/

/-- Value of a decimal digit run. -/
def intValN (ds : List Char) : ℕ :=
  ds.foldl (fun a c => 10 * a + (c.toNat - 48)) 0

/-- Exact value of the matched token: integer digits and optional
fractional digits. -/
def tokenVal (ds : List Char) (fs : Option (List Char)) : ℚ :=
  (intValN ds : ℚ) +
    match fs with
    | none => 0
    | some f => (intValN f : ℚ) / (10 : ℚ) ^ f.length

/-- The optional fractional step of the pattern: after the dot, one or
more digits followed by `U`; the integer digits `ds` were already
matched. -/
def tryFrac (ds r2 : List Char) : Option ℚ :=
  if (r2.takeWhile Char.isDigit).isEmpty then none
  else
    match r2.dropWhile Char.isDigit with
    | 'U' :: _ => some (tokenVal ds (some (r2.takeWhile Char.isDigit)))
    | _ => none

/-- One attempt of the pattern `C(\d+(?:\.\d+)?)U` anchored at the head
of the character list. -/
def tryAt : List Char → Option ℚ
  | [] => none
  | c :: rest =>
    if c = 'C' then
      if (rest.takeWhile Char.isDigit).isEmpty then none
      else
        match rest.dropWhile Char.isDigit with
        | 'U' :: _ => some (tokenVal (rest.takeWhile Char.isDigit) none)
        | '.' :: r2 => tryFrac (rest.takeWhile Char.isDigit) r2
        | _ => none
    else none

/-- Leftmost-match search of the pattern, as the regex engine scans
the string position by position. -/
def scanCNU : List Char → Option ℚ
  | [] => none
  | c :: cs =>
    match tryAt (c :: cs) with
    | some v => some v
    | none => scanCNU cs

/-- The extracted conversion factor: the value of the leftmost
`C<n>U` token, with `fillna(1)` defaulting it to 1 when the pattern
does not occur. -/
def factor (s : String) : ℚ :=
  (scanCNU s.data).getD 1

/-- `Cajas_x` of one assignment row:
`df['Cajas_x'] = df['Cant. Pick. UMS'] / df['Factor']`, the division
applied with no guard on the factor. -/
def cajas_x (cantPickUMS : ℚ) (huella : String) : ℚ :=
  cantPickUMS / factor huella

/-- Claim C6 (claim holds, code does not): the footprint `"C0U"`
extracts the conversion factor 0, and `cajas_x` divides by it with no
coercion and no signaled error — the division by a non-positive factor
is exactly what the source performs. -/
theorem factor_divisor_zero :
    factor "C0U" = 0 ∧ cajas_x 360 "C0U" = 360 / 0 := by
  have h : factor "C0U" = 0 := by
    have h1 : scanCNU "C0U".data = some (tokenVal ['0'] none) := rfl
    have h2 : intValN ['0'] = 0 := rfl
    rw [factor, h1, Option.getD_some, tokenVal, h2]
    norm_num
  exact ⟨h, by rw [cajas_x, h]⟩

/-- The compound grouping key of the stock aggregation. -/
structure StockKey where
  concatUA : String
  ubicacion : String
  codArticulo : String
  factorCol : ℚ
  um : String
  nivel : String
  loteProveedor : String
deriving DecidableEq

/-- One stock row: grouping key paired with the two summed quantity
columns `Cant. Final UMS` and `Cajas`. -/
abbrev StockRow := StockKey × ℚ × ℚ

/-- The per-key totals of the two quantity columns. -/
def keyTotal (l : List StockRow) (k : StockKey) : ℚ × ℚ :=
  (((l.filter fun r => r.1 == k).map fun r => r.2.1).sum,
   ((l.filter fun r => r.1 == k).map fun r => r.2.2).sum)

/-- The aggregation: one row per distinct key, holding the key's
totals. -/
def aggregate (l : List StockRow) : List StockRow :=
  ((l.map Prod.fst).dedup).map fun k => (k, keyTotal l k)

theorem keyTotal_perm {l l' : List StockRow} (h : l.Perm l') (k : StockKey) :
    keyTotal l k = keyTotal l' k := by
  unfold keyTotal
  rw [((h.filter _).map _).sum_eq, ((h.filter _).map _).sum_eq]

theorem nodup_filter_beq {α : Type} [DecidableEq α] (ks : List α) (hn : ks.Nodup)
    (k : α) : (ks.filter fun x => x == k) = if k ∈ ks then [k] else [] := by
  induction ks with
  | nil => simp
  | cons a t ih =>
    rw [List.nodup_cons] at hn
    by_cases ha : a = k
    · subst ha
      have ht : (t.filter fun x => x == a) = [] := by
        rw [ih hn.2, if_neg hn.1]
      simp [List.filter_cons, ht]
    · have hb : (a == k) = false := by simp [ha]
      have hka : ¬ k = a := fun h => ha h.symm
      simp [List.filter_cons, hb, ih hn.2, hka]

theorem keyTotal_aggregate (l : List StockRow) (k : StockKey) :
    keyTotal (aggregate l) k = keyTotal l k := by
  have hfil : (aggregate l).filter (fun r => r.1 == k) =
      (((l.map Prod.fst).dedup).filter fun x => x == k).map
        fun k' => (k', keyTotal l k') := by
    rw [aggregate, List.filter_map]
    rfl
  rw [nodup_filter_beq _ (List.nodup_dedup _) k] at hfil
  by_cases hk : k ∈ (l.map Prod.fst).dedup
  · rw [if_pos hk] at hfil
    unfold keyTotal at *
    rw [hfil]
    simp
  · rw [if_neg hk] at hfil
    have hnil : l.filter (fun r => r.1 == k) = [] := by
      rw [List.filter_eq_nil_iff]
      intro r hr hbeq
      exact hk (List.mem_dedup.mpr (List.mem_map.mpr
        ⟨r, hr, by simpa using hbeq⟩))
    unfold keyTotal
    rw [hfil, hnil]
    simp

theorem aggregate_idem (l : List StockRow) :
    aggregate (aggregate l) = aggregate l := by
  have hkeys : (aggregate l).map Prod.fst = (l.map Prod.fst).dedup := by
    rw [aggregate, List.map_map]
    exact List.map_id _
  rw [aggregate, hkeys, List.dedup_idem]
  exact List.map_congr_left fun k _ => by rw [keyTotal_aggregate]

/-- Claim C9: the aggregation's per-key sums are invariant under any
permutation of the input rows, and aggregating an already-aggregated
table by the same key is a no-op. -/
theorem aggregate_perm_idem (l l' : List StockRow) (h : l.Perm l') :
    (∀ k, keyTotal (aggregate l) k = keyTotal (aggregate l') k) ∧
    aggregate (aggregate l) = aggregate l :=
  ⟨fun k => by rw [keyTotal_aggregate, keyTotal_aggregate, keyTotal_perm h],
   aggregate_idem l⟩

/-- Witness for C9 on a two-row table and its transposition. -/
theorem aggregate_perm_idem_witness :
    (keyTotal (aggregate
        [(⟨"U1A1", "U1", "A1", 36, "CAJ", "BAJO", "L1"⟩, 10, 5),
         (⟨"U2A2", "U2", "A2", 12, "CAJ", "ALTO", "L2"⟩, 2, 1)])
      ⟨"U1A1", "U1", "A1", 36, "CAJ", "BAJO", "L1"⟩ =
     keyTotal (aggregate
        [(⟨"U2A2", "U2", "A2", 12, "CAJ", "ALTO", "L2"⟩, 2, 1),
         (⟨"U1A1", "U1", "A1", 36, "CAJ", "BAJO", "L1"⟩, 10, 5)])
      ⟨"U1A1", "U1", "A1", 36, "CAJ", "BAJO", "L1"⟩) ∧
    aggregate (aggregate
        [(⟨"U1A1", "U1", "A1", 36, "CAJ", "BAJO", "L1"⟩, 10, 5),
         (⟨"U2A2", "U2", "A2", 12, "CAJ", "ALTO", "L2"⟩, 2, 1)]) =
      aggregate
        [(⟨"U1A1", "U1", "A1", 36, "CAJ", "BAJO", "L1"⟩, 10, 5),
         (⟨"U2A2", "U2", "A2", 12, "CAJ", "ALTO", "L2"⟩, 2, 1)] := by
  have h := aggregate_perm_idem
    [(⟨"U1A1", "U1", "A1", 36, "CAJ", "BAJO", "L1"⟩, 10, 5),
     (⟨"U2A2", "U2", "A2", 12, "CAJ", "ALTO", "L2"⟩, 2, 1)]
    [(⟨"U2A2", "U2", "A2", 12, "CAJ", "ALTO", "L2"⟩, 2, 1),
     (⟨"U1A1", "U1", "A1", 36, "CAJ", "BAJO", "L1"⟩, 10, 5)]
    (List.Perm.swap _ _ _)
  exact ⟨h.1 _, h.2⟩

end Rastrero
